import Mathlib

/-!
Verification of `adal/user_realm.py` (realm discovery) against its design
specification.  The Python module is shallowly embedded: each method becomes a
Lean function over explicit state, Python exceptions become an error type, and
the callback protocol is recorded as the list of callback invocations a call
performs.  The collaborators that are not part of the analysed source
(`util.py`, `constants.py`, the HTTP client) are modelled from the
specification and are marked as such in their doc comments.
-/

set_option autoImplicit false

namespace Adal

/-- Python exceptions that the embedded code can raise: `NameError` for an
unresolvable identifier, `TypeError` for a call with missing arguments,
`KeyError` for a missing dictionary key, and `ValueError` standing for the
JSON decoder's failure exception. -/
inductive PyErr where
  | nameError (name : String)
  | typeError (msg : String)
  | keyError (key : String)
  | valueError (msg : String)
  deriving DecidableEq

/-- A parsed JSON response body, modelled as a string-to-string dictionary:
every field the module reads (`account_type`, `federation_protocol`,
`federation_metadata_url`, `federation_active_auth_url`) is a JSON string in
the documented response shape. -/
def Body : Type := List (String × String)

instance : DecidableEq Body := by
  unfold Body
  infer_instance

/-- Dictionary lookup, `d[k]` / `d.get(k)`: the value bound to key `k`. -/
def dictGet (d : Body) (k : String) : Option String :=
  (d.find? (fun p => p.1 = k)).map Prod.snd

/-- The module-level names bound in `adal/user_realm.py`: the names bound by
the import statements at lines 23–34 (`quote`, `unquote`, `urlencode`,
`urlparse`, `urlsplit`, `requests`, `constants`, `log`, `util`) and the
module-level definitions (`USER_REALM_PATH_TEMPLATE`, `AccountType`,
`FederationProtocolType`, the class `UserRealm`).  Notably the name `json`
is never bound. -/
def moduleGlobals : List String :=
  ["quote", "unquote", "urlencode", "urlparse", "urlsplit",
   "requests", "constants", "log", "util",
   "USER_REALM_PATH_TEMPLATE", "AccountType", "FederationProtocolType",
   "UserRealm"]

/-- Modelled from the spec: `constants.py` is not under `src/`.  The closed
account-type vocabulary (spec section 3: `Managed`, `Federated`, `Unknown`),
as the dictionary `constants.UserRealm.account_type` mapping canonical names
to normalized values. -/
def AccountType : Body :=
  [("Federated", "federated"), ("Managed", "managed"), ("Unknown", "unknown")]

/-- Modelled from the spec: `constants.py` is not under `src/`.  The closed
federation-protocol vocabulary (spec sections 1 and 3: WS-Federation and the
other delegation protocols), as the dictionary
`constants.UserRealm.federation_protocol_type`. -/
def FederationProtocolType : Body :=
  [("WSFederation", "wsfederation"), ("SAML2", "saml2"), ("Unknown", "unknown")]

/-- Python truthiness of the optional string values flowing into validation:
`None` and the empty string are falsy. -/
def pyFalsy : Option String → Bool
  | none => true
  | some s => s = ""

/-- Python `str.lower`; the vocabularies are pure ASCII, on which
`String.toLower` agrees with it. -/
def pyLower (s : String) : String := String.toLower s

/-- The names in scope inside the body of `_validate_constant_value`
(lines 88–96): its parameters, then the module globals.  The identifier
`constnats` written at line 96 is none of them (and is no Python builtin),
so evaluating it raises `NameError`. -/
def validateConstantValueScope : List String :=
  "self" :: "constants" :: "value" :: "case_sensitive" :: moduleGlobals

/-- `_validate_constant_value(self, constants, value, case_sensitive)`
(lines 88–96).  After the falsiness guard and the optional lowercasing, the
return expression at line 96 tests membership in `constnats.values()`; that
name does not resolve in any enclosing scope, so the expression raises
`NameError` instead of performing the membership test.  The membership test
that the line would perform if the name resolved is kept in the
(unreachable) other branch. -/
def _validate_constant_value (constants : Body) (value : Option String)
    (case_sensitive : Bool) : Except PyErr (Option String) :=
  if pyFalsy value then
    .ok none
  else
    let v := if case_sensitive then value.getD "" else pyLower (value.getD "")
    if validateConstantValueScope.contains "constnats" then
      .ok (if (constants.map Prod.snd).contains v then some v else none)
    else
      .error (.nameError "constnats")

/-- The number of parameters of `_validate_constant_value` besides `self`
(line 88): `constants`, `value`, `case_sensitive`; none of them has a
default value. -/
def validateConstantValueParamCount : Nat := 3

/-- A call `self._validate_constant_value(a1, a2)` with exactly two positional
arguments (lines 98–99 and 101–102): Python binds positional arguments left to
right and raises `TypeError` before entering the body when fewer arguments are
supplied than there are parameters without defaults. -/
def callValidateConstantValue2 (a1 : Body) (a2 : Option String) :
    Except PyErr (Option String) :=
  if 2 < validateConstantValueParamCount then
    .error (.typeError
      "_validate_constant_value() missing 1 required positional argument: case_sensitive")
  else
    _validate_constant_value a1 a2 false

/-- `_validate_account_type(self, type)` (lines 98–99): forwards to
`_validate_constant_value(AccountType, type)` — a two-argument call. -/
def _validate_account_type (type : Option String) : Except PyErr (Option String) :=
  callValidateConstantValue2 AccountType type

/-- `_validate_federation_protocol(self, protocol)` (lines 101–102): forwards
to `_validate_constant_value(FederationProtocolType, protocol)` — a
two-argument call. -/
def _validate_federation_protocol (protocol : Option String) :
    Except PyErr (Option String) :=
  callValidateConstantValue2 FederationProtocolType protocol

/-- The mutable fields of a `UserRealm` object that discovery populates;
`__init__` (lines 44–54) sets all four to `None`. -/
structure RealmState where
  _federation_protocol : Option String
  _account_type : Option String
  _federation_metadata_url : Option String
  _federation_active_auth_url : Option String
  deriving DecidableEq

/-- The state `__init__` leaves the object in: every discovery field unset. -/
def initState : RealmState :=
  { _federation_protocol := none
    _account_type := none
    _federation_metadata_url := none
    _federation_active_auth_url := none }

/-- One invocation of the caller's callback, as performed by the module:
`createError m` is `callback(self._log.create_error(m))`; `createErrorWith`
is the two-argument `callback(self._log.create_error(m), error_response)`
from the HTTP-error branch of `discover`; `raisedExn` is `callback(exp, None)`
from the generic exception handler of `discover`; `success` is
`callback(None)`. -/
inductive CallbackCall where
  | createError (msg : String)
  | createErrorWith (msg : String) (second : Option Body)
  | raisedExn (e : PyErr)
  | success
  deriving DecidableEq

/-- Evaluation of `json.loads(body)` at line 117.  Python first resolves the
bare name `json` in the enclosing scopes; it is not among the module globals
(and is no builtin), so the lookup itself raises `NameError` and no decoding
happens.  `loads` is the decoding function the call would invoke if the name
resolved (returning `none` where the decoder would raise); the definition is
parametric in it precisely because this module can never reach it. -/
def jsonLoads (loads : String → Option Body) (body : String) :
    Except PyErr Body :=
  if moduleGlobals.contains "json" then
    match loads body with
    | some d => .ok d
    | none => .error (.valueError "Expecting value")
  else
    .error (.nameError "json")

/-- Outcome of running `_parse_discovery_response`: either the method returns
normally, or it raises an exception to its caller; both record the object
state at that point and the callback invocations made before it. -/
inductive ParseOutcome where
  | returned (st : RealmState) (calls : List CallbackCall)
  | raised (st : RealmState) (calls : List CallbackCall) (e : PyErr)
  deriving DecidableEq

/-- `_parse_discovery_response(self, body, callback)` (lines 112–141).
The `try` around `json.loads` catches any exception (line 118) and reports
the parse failure through the callback; the remaining statements run outside
any handler, so a `KeyError` from a missing field or an exception escaping a
validation helper propagates to the caller. -/
def _parse_discovery_response (loads : String → Option Body) (st : RealmState)
    (body : String) : ParseOutcome :=
  match jsonLoads loads body with
  | .error _ =>
      .returned st
        [.createError ("Parsing realm discovery response JSON failed: " ++ body)]
  | .ok response =>
    match dictGet response "account_type" with
    | none => .raised st [] (.keyError "account_type")
    | some rawType =>
      match _validate_account_type (some rawType) with
      | .error e => .raised st [] e
      | .ok none =>
          .returned st [.createError "Cannot parse account_type: False"]
      | .ok (some account_type) =>
        let st := { st with _account_type := some account_type }
        if dictGet AccountType "Federated" = some account_type then
          match dictGet response "federation_protocol" with
          | none => .raised st [] (.keyError "federation_protocol")
          | some rawProtocol =>
            match _validate_federation_protocol (some rawProtocol) with
            | .error e => .raised st [] e
            | .ok none =>
                .returned st [.createError "Cannot parse federation protocol: False"]
            | .ok (some protocol) =>
              let st := { st with _federation_protocol := some protocol }
              match dictGet response "federation_metadata_url" with
              | none => .raised st [] (.keyError "federation_metadata_url")
              | some metadataUrl =>
                let st := { st with _federation_metadata_url := some metadataUrl }
                match dictGet response "federation_active_auth_url" with
                | none => .raised st [] (.keyError "federation_active_auth_url")
                | some activeAuthUrl =>
                    .returned { st with _federation_active_auth_url := some activeAuthUrl }
                      [.success]
        else
          .returned st [.success]

/-- Modelled from the spec: the HTTP collaborator (spec section 6) returns a
status code and a body; `json` here is the outcome of the diagnostic
`resp.json()` call in the HTTP-error branch (`some d` when it parses,
`none` when it raises). -/
structure HttpResponse where
  status_code : Nat
  body : String
  json : Option Body
  deriving DecidableEq

/-- Outcome of `requests.get` inside the `try` of `discover`: either the
transport raised, or a response came back. -/
inductive RequestOutcome where
  | raised (e : PyErr)
  | resp (r : HttpResponse)
  deriving DecidableEq

/-- Modelled from the spec: `util.is_http_success` (`util.py` is not under
`src/`); spec sections 4.2 and 7 classify as an HTTP error every status code
outside the 2xx success range. -/
def is_http_success (status_code : Nat) : Bool :=
  decide (200 ≤ status_code ∧ status_code ≤ 299)

/-- The error string built in the HTTP-error branch of `discover`
(lines 157–160): the operation name and status code, extended with the raw
server response when the body is non-empty (truthy). -/
def httpErrorString (status_code : Nat) (body : String) : String :=
  let s := "User Realm Discovery request returned http error: " ++ toString status_code
  if body = "" then s else s ++ " and server response: " ++ body

/-- The `error_response` argument passed with the HTTP error (lines 158–165):
it starts as the empty string (modelled `none`) and is replaced by the parsed
JSON of the body only when the body is truthy and the best-effort
`resp.json()` succeeds; a diagnostic parse failure is swallowed by the bare
`except: pass`. -/
def errorResponse (r : HttpResponse) : Option Body :=
  if r.body = "" then none else r.json

/-- `discover(self, callback)` (lines 143–173), from the point the request
outcome is known.  A transport exception is caught by the outer handler and
delivered as `callback(exp, None)`; a non-2xx response takes the HTTP-error
branch; a 2xx response is handed to `_parse_discovery_response`, whose own
uncaught exceptions are caught by the same outer handler and also delivered
as `callback(exp, None)`. -/
def discover (loads : String → Option Body) (st : RealmState)
    (req : RequestOutcome) : RealmState × List CallbackCall :=
  match req with
  | .raised e => (st, [.raisedExn e])
  | .resp r =>
    if is_http_success r.status_code then
      match _parse_discovery_response loads st r.body with
      | .returned st' calls => (st', calls)
      | .raised st' calls e => (st', calls ++ [.raisedExn e])
    else
      (st, [.createErrorWith (httpErrorString r.status_code r.body) (errorResponse r)])

/-- UTF-8 encoding of one Unicode scalar value, as the list of its byte
values; Python's `quote` percent-encodes the UTF-8 bytes of its input. -/
def utf8EncodeNat (c : Nat) : List Nat :=
  if c < 0x80 then [c]
  else if c < 0x800 then
    [0xC0 + c / 0x40, 0x80 + c % 0x40]
  else if c < 0x10000 then
    [0xE0 + c / 0x1000, 0x80 + c / 0x40 % 0x40, 0x80 + c % 0x40]
  else
    [0xF0 + c / 0x40000, 0x80 + c / 0x1000 % 0x40, 0x80 + c / 0x40 % 0x40,
     0x80 + c % 0x40]

/-- The UTF-8 bytes of a string. -/
def utf8Bytes (s : String) : List Nat :=
  (s.data.map (fun c => utf8EncodeNat c.toNat)).flatten

/-- Uppercase hexadecimal digit, as used by Python's percent-encoding. -/
def hexDigit (n : Nat) : Char :=
  List.getD
    ['0', '1', '2', '3', '4', '5', '6', '7', '8', '9', 'A', 'B', 'C', 'D', 'E', 'F']
    n '0'

/-- Percent-encoding of one byte by Python's `urllib.parse.quote`: a byte is
emitted literally when it is always safe (an ASCII letter, a digit, or one of
`_ . - ~`) or listed in the call's `safe` set; every other byte becomes `%`
followed by two uppercase hexadecimal digits. -/
def quoteByte (safe : List Nat) (b : Nat) : List Char :=
  if 65 ≤ b ∧ b ≤ 90 ∨ 97 ≤ b ∧ b ≤ 122 ∨ 48 ≤ b ∧ b ≤ 57 ∨
      b ∈ [95, 46, 45, 126] ∨ b ∈ safe then
    [Char.ofNat b]
  else
    ['%', hexDigit (b / 16), hexDigit (b % 16)]

/-- Python `urllib.parse.quote(s, safe)`: percent-encode the UTF-8 bytes of
`s`, keeping the bytes of `safe` unescaped. -/
def quote (s : String) (safe : List Nat) : String :=
  ⟨((utf8Bytes s).map (quoteByte safe)).flatten⟩

/-- The `safe` argument of the `quote` call at line 79 of the source,
namely the characters of the Python literal with the codes: `~` 126, `(` 40,
`)` 41, `*` 42, `!` 33, `.` 46, and the apostrophe 39. -/
def realmQuoteSafe : List Nat := [126, 40, 41, 42, 33, 46, 39]

/-- Python `str.replace` with explicit fuel: replace every non-overlapping
occurrence of `old`, scanning left to right.  Fuel `s.length` suffices since
each step consumes at least one character of `s` when `old` is non-empty. -/
def pyReplaceFuel : Nat → List Char → List Char → List Char → List Char
  | 0, s, _, _ => s
  | Nat.succ fuel, s, old, new =>
    match s with
    | [] => []
    | c :: rest =>
      if old.isPrefixOf (c :: rest) then
        new ++ pyReplaceFuel fuel ((c :: rest).drop old.length) old new
      else
        c :: pyReplaceFuel fuel rest old new

/-- Python `str.replace(old, new)` on `s`, as used at line 80. -/
def pyReplace (s old new : List Char) : List Char :=
  pyReplaceFuel s.length s old new

/-- The module constant at line 37. -/
def USER_REALM_PATH_TEMPLATE : String := "common/UserRealm/<user>"

/-- The API version set by `__init__` at line 48, `self._api_version`. -/
def api_version : String := "1.0"

/-- Modelled from the spec: the URL value handled by the URL utility
collaborator (spec section 6: parse, copy, path and query mutation,
serialize); `util.py` is not under `src/`. -/
structure Url where
  scheme : String
  netloc : String
  path : String
  query : String
  deriving DecidableEq

/-- Modelled from the spec: `util.copy_url` returns an independent URL value
equal to its argument (spec section 6, `copy(URL) → independent URL value`). -/
def copy_url (u : Url) : Url := u

/-- Python `urllib.parse.quote_plus`: `quote` with no extra safe characters
and a space encoded as `+`; `urlencode` applies it to keys and values. -/
def quote_plus (s : String) : String :=
  ⟨((utf8Bytes s).map (fun b => if b = 32 then ['+'] else quoteByte [] b)).flatten⟩

/-- Python `urllib.parse.urlencode` on a mapping: the `key=value` pairs,
each side `quote_plus`-encoded, joined with `&`. -/
def urlencode (query : List (String × String)) : String :=
  String.intercalate "&" (query.map (fun p => quote_plus p.1 ++ "=" ++ quote_plus p.2))

/-- `_get_user_realm_url(self)` (lines 76–86): copy the authority URL,
percent-encode the user principal with the safe set `~()*!.'`, substitute it
into the path template, and set the query to the encoded
`api-version` pair. -/
def _get_user_realm_url (authority : Url) (user_principle : String) : Url :=
  let user_realm_url := copy_url authority
  let url_encoded_user := quote user_principle realmQuoteSafe
  let user_realm_url := { user_realm_url with
    path := ⟨pyReplace USER_REALM_PATH_TEMPLATE.data "<user>".data url_encoded_user.data⟩ }
  let user_realm_url := { user_realm_url with
    query := urlencode [("api-version", api_version)] }
  copy_url user_realm_url

/-- The set of bytes that the specification allows to remain unescaped in the
encoded user identifier: the unreserved characters (ASCII letters, digits,
`-` 45, `.` 46, `_` 95, `~` 126) together with the preserved set `~ ( ) * ! . '`
(codes 126, 40, 41, 42, 33, 46, 39).  Stated from the specification's words,
for comparison against `quoteByte`. -/
def ClaimUnescaped (b : Nat) : Prop :=
  65 ≤ b ∧ b ≤ 90 ∨ 97 ≤ b ∧ b ≤ 122 ∨ 48 ≤ b ∧ b ≤ 57 ∨
    b = 45 ∨ b = 46 ∨ b = 95 ∨ b = 126 ∨ b = 40 ∨ b = 41 ∨ b = 42 ∨ b = 33 ∨ b = 39

instance (b : Nat) : Decidable (ClaimUnescaped b) := by
  unfold ClaimUnescaped
  infer_instance

/-- A well-formed Federated discovery body (spec section 8 scenario), as its
JSON text. -/
def fedBodyStr : String :=
  "\x7b\"account_type\": \"Federated\", \"federation_protocol\": \"wsfederation\", \"federation_metadata_url\": \"https://idp/meta\", \"federation_active_auth_url\": \"https://idp/auth\"\x7d"

/-- The dictionary `fedBodyStr` decodes to. -/
def fedDict : Body :=
  [("account_type", "Federated"), ("federation_protocol", "wsfederation"),
   ("federation_metadata_url", "https://idp/meta"),
   ("federation_active_auth_url", "https://idp/auth")]

/-- A decoder taking `fedBodyStr` to `fedDict`. -/
def loadsFed : String → Option Body := fun s => if s = fedBodyStr then some fedDict else none

/-- A well-formed Managed discovery body (spec section 8 scenario). -/
def managedBodyStr : String := "\x7b\"account_type\": \"Managed\"\x7d"

/-- The dictionary `managedBodyStr` decodes to. -/
def managedDict : Body := [("account_type", "Managed")]

/-- A decoder taking `managedBodyStr` to `managedDict`. -/
def loadsManaged : String → Option Body :=
  fun s => if s = managedBodyStr then some managedDict else none

/-- A 2xx response carrying the Managed body. -/
def respManaged : HttpResponse :=
  { status_code := 200, body := managedBodyStr, json := some managedDict }

/-- A well-formed body whose `account_type` is outside the closed
account-type vocabulary. -/
def bogusBodyStr : String := "\x7b\"account_type\": \"bogus\"\x7d"

/-- The dictionary `bogusBodyStr` decodes to. -/
def bogusDict : Body := [("account_type", "bogus")]

/-- A decoder taking `bogusBodyStr` to `bogusDict`. -/
def loadsBogus : String → Option Body :=
  fun s => if s = bogusBodyStr then some bogusDict else none

/-- A well-formed Federated body with a validating protocol but no
`federation_metadata_url` key (the input named by claim C10). -/
def body10Str : String :=
  "\x7b\"account_type\": \"Federated\", \"federation_protocol\": \"wsfederation\", \"federation_active_auth_url\": \"https://idp/auth\"\x7d"

/-- The dictionary `body10Str` decodes to. -/
def dict10 : Body :=
  [("account_type", "Federated"), ("federation_protocol", "wsfederation"),
   ("federation_active_auth_url", "https://idp/auth")]

/-- A decoder taking `body10Str` to `dict10`. -/
def loads10 : String → Option Body := fun s => if s = body10Str then some dict10 else none

/-- An example authority base URL (spec section 8 scenario). -/
def exAuthority : Url :=
  { scheme := "https", netloc := "login.example.com", path := "", query := "" }

/-- An HTTP 500 response with a non-JSON body; its diagnostic `resp.json()`
raises (`json := none`). -/
def r500 : HttpResponse :=
  { status_code := 500, body := "server error, not json", json := none }

/-! Helper lemmas shared by the claim theorems. -/

/-- The `try` around `json.loads` always takes its `except` branch: the name
`json` is not a module global, so the lookup raises `NameError`, the handler
fires, and the method returns after one parse-failure callback, for every
decoder, state and body. -/
theorem parse_response_always_json_error (loads : String → Option Body)
    (st : RealmState) (body : String) :
    _parse_discovery_response loads st body =
      .returned st
        [.createError ("Parsing realm discovery response JSON failed: " ++ body)] := rfl

/-- Substituting into the path template: `str.replace` on
`common/UserRealm/<user>` rewrites exactly the trailing `<user>`. -/
theorem replace_user_template (new : List Char) :
    pyReplace ("common/UserRealm/<user>".data) ("<user>".data) new
      = "common/UserRealm/".data ++ new := by
  show "common/UserRealm/".data ++ (new ++ []) = "common/UserRealm/".data ++ new
  rw [List.append_nil]

/-- The byte-level encoding performed with the safe set of line 79 agrees,
on every byte, with the set the specification names: unreserved characters
and `~ ( ) * ! . '` stay literal, everything else becomes `%XX`. -/
theorem quoteByte_realmSafe_spec (b : Nat) :
    quoteByte realmQuoteSafe b =
      if ClaimUnescaped b then [Char.ofNat b]
      else ['%', hexDigit (b / 16), hexDigit (b % 16)] := by
  unfold quoteByte realmQuoteSafe ClaimUnescaped
  refine if_congr ?_ rfl rfl
  simp only [List.mem_cons, List.not_mem_nil, or_false]
  omega

/-- `discover` never changes the object state: every 2xx body dies at the
JSON-parse step before any field assignment, and the error branches do not
touch the fields. -/
theorem discover_state_unchanged (loads : String → Option Body) (st : RealmState)
    (req : RequestOutcome) : (discover loads st req).1 = st := by
  cases req with
  | raised e => rfl
  | resp r =>
    simp only [discover, parse_response_always_json_error]
    by_cases hs : is_http_success r.status_code <;> simp [hs]

/-! The claims. -/

/-- Claim C1: the spec promises that a well-formed Federated JSON body with a
valid `federation_protocol` reaches the callback with no error and all four
fields populated.  The code at the claim's own input instead invokes the
callback with the JSON-parse-failure error and populates nothing: the module
never imports `json`, so `json.loads` raises `NameError` inside the `try`. -/
theorem C1_federated_body_gets_parse_error_not_result :
    discover loadsFed initState
        (.resp { status_code := 200, body := fedBodyStr, json := some fedDict }) =
      (initState,
       [.createError ("Parsing realm discovery response JSON failed: " ++ fedBodyStr)]) := rfl

/-- Claim C2: the spec promises that a well-formed Managed body reaches the
callback with no error, `account_type` set to Managed and the federation
fields unset.  The code at the claim's own input instead invokes the callback
with the JSON-parse-failure error and leaves `account_type` unset as well. -/
theorem C2_managed_body_gets_parse_error_not_result :
    discover loadsManaged initState (.resp respManaged) =
      (initState,
       [.createError ("Parsing realm discovery response JSON failed: " ++ managedBodyStr)]) := rfl

/-- Claim C3: the spec promises case-insensitive vocabulary validation of
`account_type` with a `Cannot parse account_type` error for bad values.  In
the code the validation itself raises: `_validate_account_type` passes two
positional arguments to the three-parameter `_validate_constant_value` (no
defaults), a `TypeError` — for unrecognized and recognized values alike; and
through `discover` a 2xx body with a bad `account_type` is reported as a
JSON-parse failure (the body is never parsed), not as the account-type
error. -/
theorem C3_account_type_validation_raises_typeerror :
    _validate_account_type (some "bogus") =
      .error (.typeError
        "_validate_constant_value() missing 1 required positional argument: case_sensitive")
    ∧ _validate_account_type (some "Managed") =
      .error (.typeError
        "_validate_constant_value() missing 1 required positional argument: case_sensitive")
    ∧ discover loadsBogus initState
        (.resp { status_code := 200, body := bogusBodyStr, json := some bogusDict }) =
      (initState,
       [.createError ("Parsing realm discovery response JSON failed: " ++ bogusBodyStr)]) :=
  ⟨rfl, rfl, rfl⟩

/-- Claim C4: the spec promises that `_validate_constant_value` never throws,
returning the normalized value or a falsy sentinel.  The code raises
`NameError` for every truthy value, because line 96 tests membership in
`constnats.values()` — a misspelling of the `constants` parameter that
resolves to no name in scope.  Only the falsy inputs (`None`, empty string)
return `False` without raising. -/
theorem C4_validate_constant_value_raises_nameerror :
    _validate_constant_value AccountType (some "Managed") false =
      .error (.nameError "constnats")
    ∧ _validate_constant_value FederationProtocolType (some "wsfederation") false =
      .error (.nameError "constnats")
    ∧ _validate_constant_value AccountType (some "federated") true =
      .error (.nameError "constnats")
    ∧ _validate_constant_value AccountType none false = .ok none
    ∧ _validate_constant_value AccountType (some "") false = .ok none :=
  ⟨rfl, rfl, rfl, rfl, rfl⟩

/-- Claim C5: for every authority URL and non-empty user identifier, the
built URL's path is `common/UserRealm/<percent-encoded identifier>`, the
query string is exactly `api-version=1.0`, and the percent-encoding leaves
exactly the unreserved characters and `~ ( ) * ! . '` unescaped, escaping
every other byte as `%XX`. -/
theorem C5_user_realm_url_path_and_query (authority : Url) (user_principle : String)
    (_h : user_principle ≠ "") :
    (_get_user_realm_url authority user_principle).path
        = "common/UserRealm/" ++ quote user_principle realmQuoteSafe
    ∧ (_get_user_realm_url authority user_principle).query = "api-version=1.0"
    ∧ ∀ b, quoteByte realmQuoteSafe b =
        if ClaimUnescaped b then [Char.ofNat b]
        else ['%', hexDigit (b / 16), hexDigit (b % 16)] := by
  refine ⟨?_, ?_, quoteByte_realmSafe_spec⟩
  · show (⟨pyReplace USER_REALM_PATH_TEMPLATE.data "<user>".data
            (quote user_principle realmQuoteSafe).data⟩ : String) = _
    rw [show USER_REALM_PATH_TEMPLATE.data = "common/UserRealm/<user>".data from rfl,
      replace_user_template]
    rfl
  · show urlencode [("api-version", api_version)] = "api-version=1.0"
    decide

/-- Witness for claim C5 at the spec's own scenario input. -/
theorem C5_witness :
    ("alice@example.com" : String) ≠ ""
    ∧ ((_get_user_realm_url exAuthority "alice@example.com").path
          = "common/UserRealm/" ++ quote "alice@example.com" realmQuoteSafe
      ∧ (_get_user_realm_url exAuthority "alice@example.com").query = "api-version=1.0"
      ∧ ∀ b, quoteByte realmQuoteSafe b =
          if ClaimUnescaped b then [Char.ofNat b]
          else ['%', hexDigit (b / 16), hexDigit (b % 16)]) :=
  ⟨by decide, C5_user_realm_url_path_and_query exAuthority "alice@example.com" (by decide)⟩

/-- Claim C6: the federation fields are all-or-nothing over every execution
of discovery started from a freshly constructed object: when the resulting
`account_type` is not the Federated value all three federation fields are
unset, and when it is Federated either the stored protocol is a member of the
closed federation-protocol vocabulary or no success notification was
delivered.  (It holds because no execution populates any field: every 2xx
body fails at the JSON-parse step.) -/
theorem C6_federation_fields_all_or_nothing (loads : String → Option Body)
    (req : RequestOutcome) :
    ((discover loads initState req).1._account_type ≠ dictGet AccountType "Federated" →
      (discover loads initState req).1._federation_protocol = none
      ∧ (discover loads initState req).1._federation_metadata_url = none
      ∧ (discover loads initState req).1._federation_active_auth_url = none)
    ∧ ((discover loads initState req).1._account_type = dictGet AccountType "Federated" →
      (∃ p, (discover loads initState req).1._federation_protocol = some p
          ∧ (FederationProtocolType.map Prod.snd).contains p = true)
      ∨ ∀ c ∈ (discover loads initState req).2, c ≠ CallbackCall.success) := by
  have hst := discover_state_unchanged loads initState req
  constructor
  · intro _
    rw [hst]
    exact ⟨rfl, rfl, rfl⟩
  · intro hfed
    rw [hst] at hfed
    exact absurd hfed (by decide)

/-- Witness for claim C6: a Managed-body execution, whose result is not
Federated and carries no federation field. -/
theorem C6_witness :
    (discover loadsManaged initState (.resp respManaged)).1._account_type
        ≠ dictGet AccountType "Federated"
    ∧ ((discover loadsManaged initState (.resp respManaged)).1._federation_protocol = none
      ∧ (discover loadsManaged initState (.resp respManaged)).1._federation_metadata_url = none
      ∧ (discover loadsManaged initState
            (.resp respManaged)).1._federation_active_auth_url = none) :=
  ⟨by decide, (C6_federation_fields_all_or_nothing loadsManaged (.resp respManaged)).1 (by decide)⟩

/-- Claim C7: a non-2xx response is reported through the callback with the
error string carrying the status code and, when the body is non-empty, the
raw body; the best-effort diagnostic `resp.json()` never escalates — the
same error string is delivered whether or not the body parses (the `json`
field of the response does not appear in the message). -/
theorem C7_http_error_reported_with_status_and_body (loads : String → Option Body)
    (st : RealmState) (r : HttpResponse)
    (h : is_http_success r.status_code = false) :
    discover loads st (.resp r) =
      (st, [.createErrorWith (httpErrorString r.status_code r.body) (errorResponse r)]) := by
  simp [discover, h]

/-- Witness for claim C7: an HTTP 500 with a non-JSON body whose diagnostic
parse raises. -/
theorem C7_witness :
    is_http_success r500.status_code = false
    ∧ discover loadsManaged initState (.resp r500) =
        (initState,
         [.createErrorWith (httpErrorString r500.status_code r500.body) (errorResponse r500)]) :=
  ⟨by decide, C7_http_error_reported_with_status_and_body loadsManaged initState r500 (by decide)⟩

/-- Claim C8: every execution of `discover` — transport exception, non-2xx
status, or 2xx response — invokes the caller's callback exactly once. -/
theorem C8_callback_invoked_exactly_once (loads : String → Option Body)
    (st : RealmState) (req : RequestOutcome) :
    (discover loads st req).2.length = 1 := by
  cases req with
  | raised e => rfl
  | resp r =>
    simp only [discover, parse_response_always_json_error]
    by_cases hs : is_http_success r.status_code <;> simp [hs]

/-- Claim C9: the name `json` is never imported by the module, so for every
response body — however well-formed — `_parse_discovery_response` takes the
parse-failure branch (the `NameError` from `json.loads` is caught by the
surrounding `except Exception`) and reports the
`Parsing realm discovery response JSON failed` error; consequently no
invocation of `discover` with a 2xx response ever delivers a success
notification. -/
theorem C9_json_never_imported_parse_always_fails :
    ("json" ∉ moduleGlobals)
    ∧ (∀ (loads : String → Option Body) (st : RealmState) (body : String),
        _parse_discovery_response loads st body =
          .returned st
            [.createError ("Parsing realm discovery response JSON failed: " ++ body)])
    ∧ (∀ (loads : String → Option Body) (st : RealmState) (r : HttpResponse),
        is_http_success r.status_code = true →
          CallbackCall.success ∉ (discover loads st (.resp r)).2) := by
  refine ⟨by decide, parse_response_always_json_error, ?_⟩
  intro loads st r h
  simp [discover, h, parse_response_always_json_error]

/-- Witness for claim C9: a 2xx response whose body decodes to a well-formed
Managed dictionary still yields no success notification. -/
theorem C9_witness :
    is_http_success respManaged.status_code = true
    ∧ CallbackCall.success ∉ (discover loadsManaged initState (.resp respManaged)).2 :=
  ⟨by decide,
   C9_json_never_imported_parse_always_fails.2.2 loadsManaged initState respManaged (by decide)⟩

/-- Claim C10 counterexample: at the claim's own input — a body whose JSON
text holds `account_type` Federated, a validating `federation_protocol`, and
no `federation_metadata_url` key — `_parse_discovery_response` raises nothing
(in particular no `KeyError`): it returns normally after the JSON-parse
failure callback, the object state untouched. -/
theorem C10_counterexample :
    _parse_discovery_response loads10 initState body10Str =
      .returned initState
        [.createError ("Parsing realm discovery response JSON failed: " ++ body10Str)] := rfl

/-- Claim C10 as amended: because `json` is never imported, the field lookups
of `_parse_discovery_response` are unreachable — for every body (including
the Federated one lacking `federation_metadata_url`) the method raises no
exception, invokes the callback once with the JSON-parse-failure error, and
leaves `account_type` and `federation_protocol` unset; through `discover`
with a 2xx response the callback therefore receives that error object, not a
raw `KeyError`. -/
theorem C10_amended_parse_error_instead_of_keyerror (loads : String → Option Body)
    (st : RealmState) (body : String) :
    (∀ st' calls e, _parse_discovery_response loads st body ≠ .raised st' calls e)
    ∧ _parse_discovery_response loads st body =
        .returned st
          [.createError ("Parsing realm discovery response JSON failed: " ++ body)]
    ∧ discover loads st (.resp { status_code := 200, body := body, json := loads body }) =
        (st, [.createError ("Parsing realm discovery response JSON failed: " ++ body)]) := by
  refine ⟨?_, parse_response_always_json_error loads st body, ?_⟩
  · intro st' calls e
    rw [parse_response_always_json_error]
    exact fun hcontra => ParseOutcome.noConfusion hcontra
  · simp [discover, parse_response_always_json_error, is_http_success]

end Adal
